import Mathlib

/-!
Shallow embedding of the VendorGrid vendor master-data core
(backend/app/models/vendor.py, backend/app/repositories/vendor_repository.py,
backend/app/services/vendor_service.py, backend/app/services/integration_service.py).

Storage is a list of vendor rows.  The relational store enforces the declared
constraints on every write: the uniqueness constraint on tax_id
(models/vendor.py, UniqueConstraint uix_vendor_tax_id) and NOT NULL on name and
tax_id; a statement that would violate them fails with an IntegrityError and
leaves storage unchanged (rollback).  Timestamps are abstract clock values
(Nat); every mutating operation receives the current clock as a parameter,
standing for the func.now() defaults of created_at / updated_at.

Pydantic EmailStr validation of contact_email and the HTTP layer are outside
the claims under study and are not modelled; optional fields are Option String.
-/

namespace VendorGrid

/-- A persisted vendor row (models/vendor.py, class Vendor). -/
structure Vendor where
  id : Nat
  name : String
  tax_id : String
  address : Option String
  contact_email : Option String
  created_at : Nat
  updated_at : Nat
deriving Repr, DecidableEq

/-- The vendors table: one relational table of Vendor rows, in insertion order. -/
abbrev Storage := List Vendor

/-- The tax_id uniqueness invariant: no two rows (positions) share a tax_id
(models/vendor.py, UniqueConstraint on tax_id). -/
def uniqTax (s : Storage) : Prop :=
  s.Pairwise (fun a b => a.tax_id ≠ b.tax_id)

/-- Executable check of the tax_id uniqueness constraint, as the store
evaluates it on a write. -/
def uniqTaxB : Storage → Bool
  | [] => true
  | v :: vs => vs.all (fun w => w.tax_id != v.tax_id) && uniqTaxB vs

/-- Primary-key uniqueness of id, guaranteed by the store (id is the
autoincrement primary key). -/
def uniqIds (s : Storage) : Prop :=
  s.Pairwise (fun a b => a.id ≠ b.id)

/-- Payload of VendorCreate (schemas/vendor.py): name and tax_id required,
address and contact_email optional. -/
structure VendorCreate where
  name : String
  tax_id : String
  address : Option String
  contact_email : Option String
deriving Repr, DecidableEq

/-- Payload of VendorUpdate (schemas/vendor.py): every field optional.  The
outer Option records whether the field was supplied at all (pydantic
exclude_unset); for a supplied name or tax_id the inner Option distinguishes an
explicit null from a string, and for address or contact_email the supplied
value itself is nullable. -/
structure VendorUpdate where
  name : Option (Option String) := none
  tax_id : Option (Option String) := none
  address : Option (Option String) := none
  contact_email : Option (Option String) := none
deriving Repr, DecidableEq

/-- Storage-level failures observable by the service layer: an IntegrityError
from a declared constraint, or the client-side error SQLAlchemy raises for an
UPDATE with an empty values clause. -/
inductive RepoErr where
  | integrity
  | emptyValues
deriving Repr, DecidableEq

/-- VendorRepository.get_by_id: SELECT the row whose id matches. -/
def get_by_id (s : Storage) (id : Nat) : Option Vendor :=
  s.find? (fun v => v.id == id)

/-- VendorRepository.get_by_tax_id: SELECT the row whose tax_id matches. -/
def get_by_tax_id (s : Storage) (t : String) : Option Vendor :=
  s.find? (fun v => v.tax_id == t)

/-- VendorRepository.get_all: SELECT every row. -/
def get_all (s : Storage) : List Vendor := s

/-- The autoincrement id the store assigns to the next inserted row. -/
def nextId (s : Storage) : Nat :=
  s.foldr (fun v m => max v.id m) 0 + 1

/-- VendorRepository.create: INSERT the new row; the uniqueness constraint on
tax_id rejects the insert with IntegrityError if the tax_id is already
present. -/
def repoCreate (s : Storage) (now : Nat) (d : VendorCreate) :
    Except RepoErr (Vendor × Storage) :=
  if s.any (fun v => v.tax_id == d.tax_id) then
    .error .integrity
  else
    let v : Vendor :=
      { id := nextId s, name := d.name, tax_id := d.tax_id,
        address := d.address, contact_email := d.contact_email,
        created_at := now, updated_at := now }
    .ok (v, s ++ [v])

/-- Whether the partial payload supplied at least one field
(exclude_unset dump non-empty). -/
def hasSet (u : VendorUpdate) : Bool :=
  u.name.isSome || u.tax_id.isSome || u.address.isSome || u.contact_email.isSome

/-- Effect of the UPDATE values clause on one row: supplied fields overwrite,
unsupplied fields keep their value, and onupdate=func.now() refreshes
updated_at (models/vendor.py). -/
def applyUpd (now : Nat) (u : VendorUpdate) (v : Vendor) : Vendor :=
  { v with
    name := match u.name with | some (some n) => n | _ => v.name
    tax_id := match u.tax_id with | some (some t) => t | _ => v.tax_id
    address := match u.address with | some a => a | none => v.address
    contact_email := match u.contact_email with | some a => a | none => v.contact_email
    updated_at := now }

/-- The table after the UPDATE values clause has been applied to every row
matching the id. -/
def updMap (s : Storage) (now : Nat) (id : Nat) (u : VendorUpdate) : Storage :=
  s.map (fun v => if v.id == id then applyUpd now u v else v)

/-- VendorRepository.update: UPDATE ... WHERE id = id .. RETURNING.  Returns
none when no row matched; otherwise applies the supplied fields, refreshes
updated_at, and the store rejects the statement (IntegrityError, rollback) if
it would set name or tax_id to NULL or violate the tax_id uniqueness
constraint. -/
def repoUpdate (s : Storage) (now : Nat) (id : Nat) (u : VendorUpdate) :
    Except RepoErr (Option (Vendor × Storage)) :=
  if ¬ hasSet u then
    .error .emptyValues
  else if s.all (fun v => v.id != id) then
    .ok none
  else if u.name == some none || u.tax_id == some none then
    .error .integrity
  else if uniqTaxB (updMap s now id u) then
    match (updMap s now id u).find? (fun v => v.id == id) with
    | some v => .ok (some (v, updMap s now id u))
    | none => .ok none
  else
    .error .integrity

/-- VendorRepository.delete: DELETE WHERE id = id; true iff a row was
removed. -/
def repoDelete (s : Storage) (id : Nat) : Bool × Storage :=
  (s.any (fun v => v.id == id), s.filter (fun v => v.id != id))

/-- Outcome of VendorService.create_vendor: the created vendor, or the
HTTPException 400 duplicate-tax-id condition (carrying the offending
tax_id). -/
inductive CreateOutcome where
  | ok (v : Vendor)
  | dup (t : String)
deriving Repr, DecidableEq

/-- VendorService.create_vendor: pre-checks tax_id uniqueness via
get_by_tax_id and fails with the 400 duplicate condition before storage;
otherwise inserts, converting a storage IntegrityError into the same
duplicate condition. -/
def create_vendor (s : Storage) (now : Nat) (d : VendorCreate) :
    CreateOutcome × Storage :=
  match get_by_tax_id s d.tax_id with
  | some _ => (.dup d.tax_id, s)
  | none =>
    match repoCreate s now d with
    | .ok (v, s2) => (.ok v, s2)
    | .error _ => (.dup d.tax_id, s)

/-- Outcome of VendorService.update_vendor: the updated vendor, the None of a
missing id, the HTTPException 400 duplicate condition, or an uncaught storage
exception (a 5xx-class server error at the HTTP boundary). -/
inductive UpdateOutcome where
  | ok (v : Vendor)
  | notFound
  | dup (t : String)
  | storageError
deriving Repr, DecidableEq

/-- Python truthiness of the supplied tax_id field: the condition
vendor_data.tax_id evaluates true exactly for a supplied, non-null, non-empty
string, which this returns. -/
def truthyTax : Option (Option String) → Option String
  | some (some t) => if t = "" then none else some t
  | _ => none

/-- The duplicate-conflict test of VendorService.update_vendor: a truthy
supplied tax_id, different from the current value, already owned by a vendor
with a different id. -/
def dupConflict (s : Storage) (id : Nat) (cur : String) (u : VendorUpdate) :
    Option String :=
  match truthyTax u.tax_id with
  | some t =>
    if t ≠ cur then
      match get_by_tax_id s t with
      | some cv => if cv.id ≠ id then some t else none
      | none => none
    else none
  | none => none

/-- The repository call at the end of VendorService.update_vendor; a storage
error propagates uncaught. -/
def runRepoUpdate (s : Storage) (now : Nat) (id : Nat) (u : VendorUpdate) :
    UpdateOutcome × Storage :=
  match repoUpdate s now id u with
  | .error _ => (.storageError, s)
  | .ok none => (.notFound, s)
  | .ok (some (v, s2)) => (.ok v, s2)

/-- VendorService.update_vendor: not-found check, duplicate-conflict check on
a truthy changed tax_id, then the partial repository update with only the
supplied fields. -/
def update_vendor (s : Storage) (now : Nat) (id : Nat) (u : VendorUpdate) :
    UpdateOutcome × Storage :=
  match get_by_id s id with
  | none => (.notFound, s)
  | some ev =>
    match dupConflict s id ev.tax_id u with
    | some t => (.dup t, s)
    | none => runRepoUpdate s now id u

/-- VendorService.delete_vendor: passthrough to the repository delete. -/
def delete_vendor (s : Storage) (id : Nat) : Bool × Storage :=
  repoDelete s id

/-- Search parameters (schemas/vendor.py, VendorSearchParams). -/
structure VendorSearchParams where
  name : Option String := none
  tax_id : Option String := none
  address : Option String := none
  contact_email : Option String := none
deriving Repr, DecidableEq

/-- Try a matcher on every suffix of the text: the scanning behaviour of a
leading percent wildcard in a LIKE pattern. -/
def likeScan (f : List Char → Bool) : List Char → Bool
  | [] => f []
  | t@(_ :: ts) => f t || likeScan f ts

/-- SQL LIKE pattern matching over characters: a percent in the pattern
matches any sequence, an underscore any single character, any other
character itself. -/
def likeMatch : List Char → List Char → Bool
  | [], t => t.isEmpty
  | p :: ps, t =>
    if p = '%' then
      likeScan (fun u => likeMatch ps u) t
    else
      match t with
      | [] => false
      | c :: ts => (p == '_' || p == c) && likeMatch ps ts

/-- The characters of a string, lowercased (the lower() of the query and the
.lower() of the filter). -/
def lowerChars (s : String) : List Char :=
  s.data.map Char.toLower

/-- The LIKE condition over a non-null column: func.lower(col) LIKE the
lowercased filter between percent wildcards.  The filter is interpolated
into the pattern unescaped, so percent and underscore characters inside the
supplied filter keep their SQL wildcard meaning. -/
def likeContains (field pat : String) : Bool :=
  likeMatch ('%' :: (lowerChars pat ++ ['%'])) (lowerChars field)

/-- The same LIKE condition over a nullable column: NULL never matches
(SQL three-valued logic makes the condition non-true on NULL). -/
def likeContainsOpt (field : Option String) (pat : String) : Bool :=
  match field with
  | some f => likeContains f pat
  | none => false

/-- One conditional condition of VendorRepository.search_vendors: a filter
contributes a condition exactly when it is truthy (supplied and
non-empty). -/
def optCond (o : Option String) (f : String → Vendor → Bool) :
    List (Vendor → Bool) :=
  match o with
  | some p => if p = "" then [] else [f p]
  | none => []

/-- The condition list VendorRepository.search_vendors builds, one entry per
truthy filter, in source order. -/
def searchConds (p : VendorSearchParams) : List (Vendor → Bool) :=
  optCond p.name (fun q v => likeContains v.name q) ++
  optCond p.tax_id (fun q v => likeContains v.tax_id q) ++
  optCond p.address (fun q v => likeContainsOpt v.address q) ++
  optCond p.contact_email (fun q v => likeContainsOpt v.contact_email q)

/-- The rows matching the WHERE clause of search_vendors: with no conditions
every row matches, otherwise the conditions combine with or_. -/
def searchMatching (s : Storage) (p : VendorSearchParams) : List Vendor :=
  let cs := searchConds p
  if cs.isEmpty then s else s.filter (fun v => cs.any (fun c => c v))

/-- Insert a vendor into a list sorted by ascending id. -/
def insertById (v : Vendor) : List Vendor → List Vendor
  | [] => [v]
  | w :: ws => if v.id ≤ w.id then v :: w :: ws else w :: insertById v ws

/-- ORDER BY Vendor.id ascending. -/
def sortById (l : List Vendor) : List Vendor :=
  l.foldr insertById []

/-- VendorRepository.search_vendors: filtered rows and, from the separate
count query over the same conditions, the total match count before
pagination; the page is cut with OFFSET (page - 1) * page_size LIMIT
page_size after ORDER BY id. -/
def search_vendors (s : Storage) (p : VendorSearchParams)
    (page page_size : Nat) : List Vendor × Nat :=
  let m := searchMatching s p
  let total := m.length
  let off := (page - 1) * page_size
  (((sortById m).drop off).take page_size, total)

/-- Paginated response (schemas/vendor.py, VendorPaginationResponse), items
carried as rows. -/
structure VendorPaginationResponse where
  items : List Vendor
  total : Nat
  page : Int
  page_size : Int
  total_pages : Nat
deriving Repr, DecidableEq

/-- The page validation of search_vendors_paged: if page < 1 then page = 1. -/
def clampPage (p : Int) : Int :=
  if p < 1 then 1 else p

/-- The page_size validation of search_vendors_paged: if page_size < 1 then
page_size = 1, elif page_size > 100 then page_size = 100. -/
def clampSize (n : Int) : Int :=
  if n < 1 then 1 else if n > 100 then 100 else n

/-- VendorService.search_vendors_paged: silently clamps page to at least 1
and page_size into [1, 100], delegates to the repository search, and computes
total_pages by the ceiling-division formula of the source. -/
def search_vendors_paged (s : Storage) (p : VendorSearchParams)
    (page page_size : Int) : VendorPaginationResponse :=
  let page2 := clampPage page
  let ps2 := clampSize page_size
  let r := search_vendors s p page2.toNat ps2.toNat
  { items := r.1, total := r.2, page := page2, page_size := ps2,
    total_pages := (r.2 + ps2.toNat - 1) / ps2.toNat }

/-- One parsed CSV data row as import_vendors_csv consumes it: name and
tax_id are the str()-converted cell contents (a missing cell has already
become a literal string there), address and contact_email are None when the
cell was NA. -/
structure CsvRow where
  name : String
  tax_id : String
  address : Option String
  contact_email : Option String
deriving Repr, DecidableEq

/-- One per-row error record of the import report (schemas/vendor.py calls
it ImportError); raw_data is omitted, message texts abbreviated. -/
structure RowError where
  row_number : Nat
  field : String
  error : String
deriving Repr, DecidableEq

/-- The import report (schemas/vendor.py, ImportResult). -/
structure ImportResult where
  total_rows : Nat
  success_count : Nat
  error_count : Nat
  errors : List RowError
deriving Repr, DecidableEq

/-- Python str.strip as import_vendors_csv applies it to name and tax_id:
remove leading and trailing whitespace. -/
def pyStrip (s : String) : String :=
  ⟨((s.data.dropWhile Char.isWhitespace).reverse.dropWhile
      Char.isWhitespace).reverse⟩

/-- Prepend a row error to an accumulated import outcome. -/
def addErr (e : RowError) (r : Storage × Nat × List RowError) :
    Storage × Nat × List RowError :=
  (r.1, r.2.1, e :: r.2.2)

/-- Count one successful row in an accumulated import outcome. -/
def addOk (r : Storage × Nat × List RowError) :
    Storage × Nat × List RowError :=
  (r.1, r.2.1 + 1, r.2.2)

/-- Whether the pydantic VendorCreate construction of a row succeeds for
its contact_email field: a missing email passes, a present one must be
accepted by the EmailStr validator.  The validator itself is an external
library, so the model takes its accept set as the parameter emailOk. -/
def emailFieldOk (emailOk : String → Bool) : Option String → Bool
  | some e => emailOk e
  | none => true

/-- The row loop of VendorService.import_vendors_csv: for the row at
zero-based index idx (reported as row idx + 2, accounting for the header),
build the VendorCreate payload — the pydantic EmailStr validation of a
present contact_email raises there, caught as a field general row error —
then trim name and tax_id, reject a blank name or tax_id, reject a tax_id
already present in the current storage (the live state, which already
contains the rows created earlier in this very batch), and otherwise create
through create_vendor; an exception from create_vendor is also recorded as
a field general row error.  Returns final storage, success count, and the
row errors in row order. -/
def importRows (now : Nat) (emailOk : String → Bool) :
    Storage → Nat → List CsvRow → Storage × Nat × List RowError
  | s, _, [] => (s, 0, [])
  | s, idx, r :: rs =>
    let rn := idx + 2
    let nm := pyStrip r.name
    let tid := pyStrip r.tax_id
    if emailFieldOk emailOk r.contact_email then
      if nm = "" then
        addErr ⟨rn, "name", "Name is required"⟩
          (importRows now emailOk s (idx + 1) rs)
      else if tid = "" then
        addErr ⟨rn, "tax_id", "Tax ID is required"⟩
          (importRows now emailOk s (idx + 1) rs)
      else
        match get_by_tax_id s tid with
        | some _ =>
          addErr ⟨rn, "tax_id", "duplicate tax id"⟩
            (importRows now emailOk s (idx + 1) rs)
        | none =>
          match create_vendor s now ⟨nm, tid, r.address, r.contact_email⟩ with
          | (.ok _, s1) => addOk (importRows now emailOk s1 (idx + 1) rs)
          | (.dup _, s1) =>
            addErr ⟨rn, "general", "duplicate tax id"⟩
              (importRows now emailOk s1 (idx + 1) rs)
    else
      addErr ⟨rn, "general", "invalid contact email"⟩
        (importRows now emailOk s (idx + 1) rs)

/-- VendorService.import_vendors_csv after the file has parsed and the
required columns are present (the failing cases of those checks raise before
any row is processed and leave storage untouched): process the rows in order
and assemble the report.  The EmailStr accept set is the parameter
emailOk. -/
def import_vendors_csv (s : Storage) (now : Nat) (emailOk : String → Bool)
    (rows : List CsvRow) : Storage × ImportResult :=
  let r := importRows now emailOk s 0 rows
  (r.1, ⟨rows.length, r.2.1, r.2.2.length, r.2.2⟩)

/-- One step of the mutating vendor API surface, for stating reachable-state
invariants over operation sequences. -/
inductive Op where
  | create (now : Nat) (d : VendorCreate)
  | update (now : Nat) (id : Nat) (u : VendorUpdate)
  | importCsv (now : Nat) (emailOk : String → Bool) (rows : List CsvRow)

/-- The storage resulting from one operation, whatever its outcome. -/
def applyOp (s : Storage) : Op → Storage
  | .create now d => (create_vendor s now d).2
  | .update now id u => (update_vendor s now id u).2
  | .importCsv now emailOk rows => (import_vendors_csv s now emailOk rows).1

/-- The storage after a sequence of operations. -/
def applyOps (s : Storage) (ops : List Op) : Storage :=
  ops.foldl applyOp s

/-- One synthetic change record of the integration change feed
(schemas/integration.py, VendorChange), vendor_data carried as the row. -/
structure VendorChange where
  vendor_id : Nat
  change_type : String
  changed_fields : Option (List String)
  timestamp : Nat
  vendor_data : Vendor
deriving Repr, DecidableEq

/-- The change-feed response (schemas/integration.py,
VendorChangesResponse).  The pydantic model declares Field constraints
page ge 1 and page_size ge 1, le 100; pydantic enforces them when the
response object is constructed, which the embedding models as the failing
branch of get_vendor_changes_since rather than as a subtype of this
structure. -/
structure VendorChangesResponse where
  changes : List VendorChange
  total_changes : Nat
  since_timestamp : Nat
  page : Int
  page_size : Int
  total_pages : Int
deriving Repr, DecidableEq

/-- Python list slicing l[start:stop] with the default step: negative bounds
count from the end, and both bounds clamp into the list. -/
def pySlice {α : Type} (l : List α) (start stop : Int) : List α :=
  let n : Int := (l.length : Int)
  let b : Nat := if start < 0 then (n + start).toNat else min start.toNat l.length
  let e : Nat := if stop < 0 then (n + stop).toNat else min stop.toNat l.length
  (l.take e).drop b

/-- The synthetic updated change IntegrationService.get_vendor_changes_since
builds for one vendor. -/
def toChange (v : Vendor) : VendorChange :=
  ⟨v.id, "updated", none, v.updated_at, v⟩

/-- IntegrationService.get_vendor_changes_since: keep the vendors whose
updated_at is strictly greater than the timestamp, slice the list in memory
with the raw page arithmetic of the source (no clamping of page or
page_size), and compute total_pages by Python floor division.  The function
raises instead of returning a response — modelled as none — when page_size
is zero (ZeroDivisionError computing total_pages) or when page or page_size
violates the Field constraints of VendorChangesResponse (pydantic
ValidationError at construction: page ge 1, page_size ge 1 le 100). -/
def get_vendor_changes_since (s : Storage) (t : Nat) (page page_size : Int) :
    Option VendorChangesResponse :=
  let changed := s.filter (fun v => t < v.updated_at)
  if page_size = 0 then none
  else if page < 1 ∨ page_size < 1 ∨ page_size > 100 then none
  else
    let start := (page - 1) * page_size
    let pag := pySlice changed start (start + page_size)
    some { changes := pag.map toChange,
           total_changes := changed.length,
           since_timestamp := t,
           page := page, page_size := page_size,
           total_pages := Int.fdiv ((changed.length : Int) + page_size - 1) page_size }

/-- The observable outcome of the webhook POST attempt: a response with some
status code, or any exception (connection failure, timeout, and the like). -/
inductive PostOutcome where
  | response (status : Nat)
  | failure
deriving Repr, DecidableEq

/-- IntegrationService.send_webhook_notification as a function of the
configured URL and the outcome of the POST: no configured URL is a no-op
success; otherwise true exactly for a response status in (200, 201, 202),
false for every other status and for any exception (all exceptions are
caught). -/
def send_webhook_notification (webhook_url : Option String)
    (post : PostOutcome) : Bool :=
  match webhook_url with
  | none => true
  | some _ =>
    match post with
    | .response st => st == 200 || st == 201 || st == 202
    | .failure => false

/-! ### Basic lemmas about the uniqueness constraint -/

theorem uniqTaxB_iff (s : Storage) : uniqTaxB s = true ↔ uniqTax s := by
  induction s with
  | nil => simp [uniqTaxB, uniqTax]
  | cons v vs ih =>
    rw [uniqTax, List.pairwise_cons]
    rw [uniqTax] at ih
    simp only [uniqTaxB, Bool.and_eq_true, List.all_eq_true, bne_iff_ne, ih]
    constructor
    · rintro ⟨h1, h2⟩
      exact ⟨fun a ha => (h1 a ha).symm, h2⟩
    · rintro ⟨h1, h2⟩
      exact ⟨fun a ha => (h1 a ha).symm, h2⟩

instance : DecidablePred uniqTax :=
  fun s => decidable_of_iff _ (uniqTaxB_iff s)

instance : DecidablePred uniqIds :=
  fun s => List.instDecidablePairwise s

theorem uniqTax_eq_of_mem {s : Storage} (h : uniqTax s) {a b : Vendor}
    (ha : a ∈ s) (hb : b ∈ s) (ht : a.tax_id = b.tax_id) : a = b := by
  by_contra hne
  exact (h.forall (fun x y hxy => (Ne.symm hxy)) ha hb hne) ht

theorem create_vendor_uniq (s : Storage) (now : Nat) (d : VendorCreate)
    (h : uniqTax s) : uniqTax (create_vendor s now d).2 := by
  unfold create_vendor
  cases hfind : get_by_tax_id s d.tax_id with
  | some v => simpa using h
  | none =>
    have hnone : ∀ v ∈ s, v.tax_id ≠ d.tax_id := by
      intro v hv
      have := List.find?_eq_none.mp hfind v hv
      simpa using this
    have hany : s.any (fun v => v.tax_id == d.tax_id) = false := by
      simp only [List.any_eq_false, beq_iff_eq]
      exact hnone
    simp only [repoCreate, hany, Bool.false_eq_true, if_false]
    rw [uniqTax, List.pairwise_append]
    refine ⟨h, List.pairwise_singleton _ _, ?_⟩
    intro a ha b hb
    simp only [List.mem_singleton] at hb
    subst hb
    exact hnone a ha

theorem repoUpdate_ok_some {s : Storage} {now id : Nat} {u : VendorUpdate}
    {v : Vendor} {s2 : Storage}
    (h : repoUpdate s now id u = .ok (some (v, s2))) :
    s2 = updMap s now id u ∧
    uniqTaxB s2 = true ∧
    s2.find? (fun w => w.id == id) = some v := by
  unfold repoUpdate at h
  split at h
  · cases h
  split at h
  · cases h
  split at h
  · cases h
  split at h
  · rename_i hcond
    split at h
    · rename_i v0 hfind
      simp only [Except.ok.injEq, Option.some.injEq, Prod.mk.injEq] at h
      obtain ⟨hv, hs⟩ := h
      refine ⟨hs.symm, ?_, ?_⟩
      · rw [hs] at hcond; exact hcond
      · rw [hs, hv] at hfind; exact hfind
    · cases h
  · cases h

theorem runRepoUpdate_uniq {s : Storage} {now id : Nat} {u : VendorUpdate}
    (h : uniqTax s) : uniqTax (runRepoUpdate s now id u).2 := by
  unfold runRepoUpdate
  cases hr : repoUpdate s now id u with
  | error e => simpa using h
  | ok o =>
    cases o with
    | none => simpa using h
    | some p =>
      obtain ⟨v, s2⟩ := p
      have := (repoUpdate_ok_some hr).2.1
      simpa using (uniqTaxB_iff s2).mp this

theorem update_vendor_uniq (s : Storage) (now id : Nat) (u : VendorUpdate)
    (h : uniqTax s) : uniqTax (update_vendor s now id u).2 := by
  unfold update_vendor
  split
  · simpa using h
  · split
    · simpa using h
    · exact runRepoUpdate_uniq h

theorem importRows_uniq (now : Nat) (emailOk : String → Bool)
    (rows : List CsvRow) :
    ∀ (s : Storage) (idx : Nat), uniqTax s →
      uniqTax (importRows now emailOk s idx rows).1 := by
  induction rows with
  | nil => intro s idx h; simpa [importRows] using h
  | cons r rs ih =>
    intro s idx h
    rw [importRows]
    by_cases he : emailFieldOk emailOk r.contact_email = true
    · rw [if_pos he]
      by_cases h1 : pyStrip r.name = ""
      · simpa [h1, addErr] using ih s (idx + 1) h
      · by_cases h2 : pyStrip r.tax_id = ""
        · simpa [h1, h2, addErr] using ih s (idx + 1) h
        · simp only [h1, h2, if_false, if_neg h1, if_neg h2]
          cases hg : get_by_tax_id s (pyStrip r.tax_id) with
          | some _ => simpa [addErr] using ih s (idx + 1) h
          | none =>
            have hcu := create_vendor_uniq s now
              ⟨pyStrip r.name, pyStrip r.tax_id, r.address, r.contact_email⟩ h
            cases hcv : create_vendor s now
                ⟨pyStrip r.name, pyStrip r.tax_id, r.address, r.contact_email⟩ with
            | mk o s1 =>
              rw [hcv] at hcu
              cases o with
              | ok v => simpa [addOk] using ih s1 (idx + 1) hcu
              | dup t => simpa [addErr] using ih s1 (idx + 1) hcu
    · rw [if_neg he]
      simpa [addErr] using ih s (idx + 1) h

theorem applyOp_uniq (s : Storage) (op : Op) (h : uniqTax s) :
    uniqTax (applyOp s op) := by
  cases op with
  | create now d => exact create_vendor_uniq s now d h
  | update now id u => exact update_vendor_uniq s now id u h
  | importCsv now emailOk rows => exact importRows_uniq now emailOk rows s 0 h

/-- C1: starting from any storage in which no two vendors share a tax_id,
after any sequence of create_vendor, update_vendor, and import_vendors_csv
operations no two distinct vendor records share the same tax_id. -/
theorem taxid_uniqueness_invariant (s : Storage) (ops : List Op)
    (h : uniqTax s) : uniqTax (applyOps s ops) := by
  induction ops generalizing s with
  | nil => simpa [applyOps] using h
  | cons op ops ih =>
    have : applyOps s (op :: ops) = applyOps (applyOp s op) ops := rfl
    rw [this]
    exact ih (applyOp s op) (applyOp_uniq s op h)

/-- Witness for C1 at a concrete state and operation sequence exercising all
three operation kinds, including colliding creates and a within-batch import
collision. -/
theorem taxid_uniqueness_invariant_witness :
    uniqTax ([] : Storage) ∧
    uniqTax (applyOps []
      [Op.create 1 ⟨"A", "T1", none, none⟩,
       Op.create 2 ⟨"B", "T1", none, none⟩,
       Op.importCsv 3 (fun _ => true)
         [⟨"C", "T2", none, none⟩, ⟨"D", "T2", none, none⟩],
       Op.update 4 1 { tax_id := some (some "T9") }]) :=
  ⟨by decide, taxid_uniqueness_invariant _ _ (by decide)⟩

/-! ### C2: duplicate create rejection -/

theorem create_dup_of_mem (s : Storage) (now : Nat) (d : VendorCreate)
    (v : Vendor) (hv : v ∈ s) (ht : v.tax_id = d.tax_id) :
    create_vendor s now d = (.dup d.tax_id, s) := by
  unfold create_vendor
  cases hfind : get_by_tax_id s d.tax_id with
  | some w => rfl
  | none =>
    exfalso
    rw [get_by_tax_id] at hfind
    have := List.find?_eq_none.mp hfind v hv
    simp [ht] at this

theorem create_dup_unchanged (s : Storage) (now : Nat) (d : VendorCreate)
    (t : String) (s2 : Storage)
    (h : create_vendor s now d = (.dup t, s2)) : s2 = s := by
  unfold create_vendor at h
  split at h
  · exact (Prod.mk.injEq .. ▸ h).2.symm
  · split at h
    · simp at h
    · exact (Prod.mk.injEq .. ▸ h).2.symm

theorem create_fresh_ok (s : Storage) (now : Nat) (d : VendorCreate)
    (hnew : ∀ v ∈ s, v.tax_id ≠ d.tax_id) :
    create_vendor s now d =
      (.ok ⟨nextId s, d.name, d.tax_id, d.address, d.contact_email, now, now⟩,
       s ++ [⟨nextId s, d.name, d.tax_id, d.address, d.contact_email, now, now⟩]) := by
  have hfind : get_by_tax_id s d.tax_id = none := by
    rw [get_by_tax_id, List.find?_eq_none]
    intro x hx
    simpa using hnew x hx
  have hany : s.any (fun v => v.tax_id == d.tax_id) = false := by
    simp only [List.any_eq_false, beq_iff_eq]
    exact hnew
  rw [create_vendor, hfind]
  simp only [repoCreate, hany, Bool.false_eq_true, if_false]

/-- C2: create_vendor fails with the duplicate-tax-id bad-input condition
whenever a vendor with the same tax_id already exists, a failed create
leaves storage unchanged, and two creates with the same tax_id leave exactly
one vendor carrying that tax_id. -/
theorem create_vendor_duplicate_rejection :
    (∀ (s : Storage) (now : Nat) (d : VendorCreate) (v : Vendor),
        v ∈ s → v.tax_id = d.tax_id →
        create_vendor s now d = (.dup d.tax_id, s)) ∧
    (∀ (s s2 : Storage) (now : Nat) (d : VendorCreate) (t : String),
        create_vendor s now d = (.dup t, s2) → s2 = s) ∧
    (∀ (s : Storage) (now1 now2 : Nat) (d d2 : VendorCreate),
        d2.tax_id = d.tax_id →
        (∀ v ∈ s, v.tax_id ≠ d.tax_id) →
        ∃ w, create_vendor s now1 d = (.ok w, s ++ [w]) ∧
          w.tax_id = d.tax_id ∧
          create_vendor (s ++ [w]) now2 d2 = (.dup d2.tax_id, s ++ [w]) ∧
          ((s ++ [w]).filter (fun v => v.tax_id == d.tax_id)).length = 1) := by
  refine ⟨create_dup_of_mem, fun s s2 now d t h => create_dup_unchanged s now d t s2 h, ?_⟩
  intro s now1 now2 d d2 ht hnew
  refine ⟨⟨nextId s, d.name, d.tax_id, d.address, d.contact_email, now1, now1⟩,
    create_fresh_ok s now1 d hnew, rfl, ?_, ?_⟩
  · exact create_dup_of_mem (s ++ [⟨nextId s, d.name, d.tax_id, d.address,
      d.contact_email, now1, now1⟩]) now2 d2
      ⟨nextId s, d.name, d.tax_id, d.address, d.contact_email, now1, now1⟩
      (by simp) ht.symm
  · rw [List.filter_append]
    have h1 : s.filter (fun v => v.tax_id == d.tax_id) = [] := by
      rw [List.filter_eq_nil_iff]
      intro a ha
      simpa using hnew a ha
    rw [h1]
    simp

/-- Witness for C2 at the concrete T-1 example of the specification. -/
theorem create_vendor_duplicate_rejection_witness :
    ∃ w, create_vendor [] 1 ⟨"Acme", "T-1", none, none⟩ = (.ok w, [] ++ [w]) ∧
      w.tax_id = "T-1" ∧
      create_vendor ([] ++ [w]) 2 ⟨"Other", "T-1", none, none⟩ =
        (.dup "T-1", [] ++ [w]) ∧
      (([] ++ [w]).filter (fun v : Vendor => v.tax_id == "T-1")).length = 1 :=
  create_vendor_duplicate_rejection.2.2 [] 1 2
    ⟨"Acme", "T-1", none, none⟩ ⟨"Other", "T-1", none, none⟩ rfl (by simp)

/-! ### C3: the duplicate condition on update -/

theorem uniqIds_eq_of_mem {s : Storage} (h : uniqIds s) {a b : Vendor}
    (ha : a ∈ s) (hb : b ∈ s) (hid : a.id = b.id) : a = b := by
  by_contra hne
  exact (h.forall (fun x y hxy => (Ne.symm hxy)) ha hb hne) hid

theorem applyUpd_id (now : Nat) (u : VendorUpdate) (v : Vendor) :
    (applyUpd now u v).id = v.id := rfl

theorem applyUpd_created_at (now : Nat) (u : VendorUpdate) (v : Vendor) :
    (applyUpd now u v).created_at = v.created_at := rfl

theorem applyUpd_updated_at (now : Nat) (u : VendorUpdate) (v : Vendor) :
    (applyUpd now u v).updated_at = now := rfl

theorem uniqTax_map_of_taxid_eq {s : Storage} {f : Vendor → Vendor}
    (hf : ∀ w ∈ s, (f w).tax_id = w.tax_id) (h : uniqTax s) :
    uniqTax (s.map f) := by
  rw [uniqTax, List.pairwise_map]
  exact h.imp_of_mem (fun ha hb hr => by rw [hf _ ha, hf _ hb]; exact hr)

theorem updMap_find?_eq {s : Storage} {now id : Nat} {u : VendorUpdate}
    {v : Vendor} (hf : s.find? (fun w => w.id == id) = some v) :
    (updMap s now id u).find? (fun w => w.id == id) =
      some (applyUpd now u v) := by
  rw [updMap, List.find?_map]
  have hpe : ((fun w : Vendor => w.id == id) ∘
      (fun w => if w.id == id then applyUpd now u w else w)) =
      (fun w : Vendor => w.id == id) := by
    funext w
    simp only [Function.comp]
    by_cases hw : (w.id == id) = true
    · rw [if_pos hw, applyUpd_id]
    · rw [if_neg hw]
  rw [hpe, hf]
  have hv : (v.id == id) = true := by simpa using List.find?_some hf
  rw [Option.map_some', if_pos hv]

theorem runRepoUpdate_ne_dup (s : Storage) (now id : Nat) (u : VendorUpdate)
    (t : String) : (runRepoUpdate s now id u).1 ≠ UpdateOutcome.dup t := by
  unfold runRepoUpdate
  split <;> simp

theorem dupConflict_some_iff (s : Storage) (id : Nat) (cur : String)
    (u : VendorUpdate) (hu : uniqTax s) :
    (∃ t, dupConflict s id cur u = some t) ↔
    (∃ t w, truthyTax u.tax_id = some t ∧ t ≠ cur ∧
      w ∈ s ∧ w.tax_id = t ∧ w.id ≠ id) := by
  constructor
  · rintro ⟨t, h⟩
    unfold dupConflict at h
    split at h
    · rename_i t0 htt
      split at h
      · rename_i hne
        split at h
        · rename_i cv hfind
          split at h
          · rename_i hcv
            refine ⟨t0, cv, htt, hne, List.mem_of_find?_eq_some hfind, ?_, hcv⟩
            have := List.find?_some hfind
            simpa using this
          · cases h
        · cases h
      · cases h
    · cases h
  · rintro ⟨t, w, htt, hne, hw, hwt, hwid⟩
    refine ⟨t, ?_⟩
    cases hf : get_by_tax_id s t with
    | none =>
      exfalso
      rw [get_by_tax_id] at hf
      have := List.find?_eq_none.mp hf w hw
      simp [hwt] at this
    | some cv =>
      have hcvmem : cv ∈ s := List.mem_of_find?_eq_some hf
      have hcvt : cv.tax_id = t := by
        have := List.find?_some hf
        simpa using this
      have hcw : cv = w := uniqTax_eq_of_mem hu hcvmem hw (hcvt.trans hwt.symm)
      simp only [dupConflict, htt]
      rw [if_pos hne]
      simp only [hf]
      rw [if_pos (by rw [hcw]; exact hwid)]

/-- C3 counterexample: vendor 1 owns tax_id TA, vendor 2 owns the empty
tax_id; a partial update of vendor 1 supplying tax_id equal to the empty
string (different from the current value and owned by the other vendor) does
not fail with the duplicate condition: the truthiness test skips the
re-check, the storage uniqueness constraint rejects the write, and the
uncaught storage error surfaces as a server error with storage unchanged. -/
theorem update_vendor_dup_claim_counterexample :
    (update_vendor [⟨1, "Acme", "TA", none, none, 10, 10⟩,
                    ⟨2, "Bmart", "", none, none, 5, 5⟩] 30 1
       { tax_id := some (some "") }).1 = UpdateOutcome.storageError ∧
    (update_vendor [⟨1, "Acme", "TA", none, none, 10, 10⟩,
                    ⟨2, "Bmart", "", none, none, 5, 5⟩] 30 1
       { tax_id := some (some "") }).2 =
      [⟨1, "Acme", "TA", none, none, 10, 10⟩,
       ⟨2, "Bmart", "", none, none, 5, 5⟩] ∧
    ("" : String) ≠ "TA" ∧
    (⟨2, "Bmart", "", none, none, 5, 5⟩ : Vendor).id ≠ 1 := by
  refine ⟨?_, ?_, by decide, by decide⟩ <;> rfl

/-- C3 (amended): on a well-formed storage holding the target vendor,
update_vendor raises the duplicate condition exactly when the payload
supplies a truthy (non-null, non-empty) tax_id different from the current
value that another vendor already owns; a duplicate failure leaves storage
(hence the target tax_id) unchanged, and updating the tax_id to its own
current value succeeds. -/
theorem update_vendor_dup_condition (s : Storage) (now id : Nat)
    (u : VendorUpdate) (ev : Vendor) (hu : uniqTax s) (hids : uniqIds s)
    (hev : get_by_id s id = some ev) :
    ((∃ t, (update_vendor s now id u).1 = UpdateOutcome.dup t) ↔
      (∃ t w, truthyTax u.tax_id = some t ∧ t ≠ ev.tax_id ∧
        w ∈ s ∧ w.tax_id = t ∧ w.id ≠ id)) ∧
    (∀ t, (update_vendor s now id u).1 = UpdateOutcome.dup t →
      (update_vendor s now id u).2 = s) ∧
    (∃ v2, (update_vendor s now id
        { tax_id := some (some ev.tax_id) }).1 = UpdateOutcome.ok v2 ∧
      v2.tax_id = ev.tax_id) := by
  have hevmem : ev ∈ s := List.mem_of_find?_eq_some hev
  have hevid : ev.id = id := by
    have := List.find?_some hev
    simpa using this
  refine ⟨?_, ?_, ?_⟩
  · simp only [update_vendor, hev]
    cases hdc : dupConflict s id ev.tax_id u with
    | some t0 =>
      simp only [hdc]
      constructor
      · intro _
        exact (dupConflict_some_iff s id ev.tax_id u hu).mp ⟨t0, hdc⟩
      · intro _
        exact ⟨t0, rfl⟩
    | none =>
      simp only [hdc]
      constructor
      · rintro ⟨t, ht⟩
        exact absurd ht (runRepoUpdate_ne_dup s now id u t)
      · rintro hr
        obtain ⟨t, h⟩ := (dupConflict_some_iff s id ev.tax_id u hu).mpr hr
        rw [h] at hdc
        cases hdc
  · intro t ht
    simp only [update_vendor, hev] at ht ⊢
    cases hdc : dupConflict s id ev.tax_id u with
    | some t0 => simp only [hdc]
    | none =>
      simp only [hdc] at ht
      exact absurd ht (runRepoUpdate_ne_dup s now id u t)
  · have hdc : dupConflict s id ev.tax_id { tax_id := some (some ev.tax_id) } = none := by
      unfold dupConflict truthyTax
      by_cases he : ev.tax_id = ""
      · simp [he]
      · simp [he]
    have hfind0 : s.find? (fun w => w.id == id) = some ev := hev
    have hall : (s.all (fun v => v.id != id)) = false := by
      rw [List.all_eq_false]
      exact ⟨ev, hevmem, by simp [hevid]⟩
    have htaxpres : ∀ w ∈ s,
        ((if (w.id == id) = true then
          applyUpd now { tax_id := some (some ev.tax_id) } w else w)).tax_id
          = w.tax_id := by
      intro w hw
      by_cases hwid : (w.id == id) = true
      · have hwid2 : w.id = id := by simpa using hwid
        have hwev : w = ev := uniqIds_eq_of_mem hids hw hevmem (by rw [hwid2, hevid])
        subst hwev
        rw [if_pos hwid]
        rfl
      · rw [if_neg hwid]
    have huniq2 : uniqTaxB (updMap s now id { tax_id := some (some ev.tax_id) }) = true := by
      rw [uniqTaxB_iff, updMap]
      exact uniqTax_map_of_taxid_eq htaxpres hu
    have hrepo : repoUpdate s now id { tax_id := some (some ev.tax_id) } =
        .ok (some (applyUpd now { tax_id := some (some ev.tax_id) } ev,
          updMap s now id { tax_id := some (some ev.tax_id) })) := by
      rw [repoUpdate]
      rw [if_neg (by simp [hasSet])]
      rw [if_neg (by simp [hall])]
      rw [if_neg (by simp)]
      rw [if_pos huniq2]
      rw [updMap_find?_eq hfind0]
    simp only [update_vendor, hev, hdc, runRepoUpdate, hrepo]
    exact ⟨applyUpd now { tax_id := some (some ev.tax_id) } ev, rfl, rfl⟩

/-- Witness for the amended C3 on a concrete two-vendor storage. -/
theorem update_vendor_dup_condition_witness :
    ((∃ t, (update_vendor [⟨1, "Acme", "TA", none, none, 10, 10⟩,
        ⟨2, "Bmart", "TB", none, none, 5, 5⟩] 30 1
        { tax_id := some (some "TB") }).1 = UpdateOutcome.dup t) ↔
      (∃ (t : String) (w : Vendor),
        truthyTax (VendorUpdate.tax_id { tax_id := some (some "TB") }) = some t ∧
        t ≠ (⟨1, "Acme", "TA", none, none, 10, 10⟩ : Vendor).tax_id ∧
        w ∈ ([⟨1, "Acme", "TA", none, none, 10, 10⟩,
             ⟨2, "Bmart", "TB", none, none, 5, 5⟩] : Storage) ∧
        w.tax_id = t ∧ w.id ≠ 1)) ∧
    (∀ t, (update_vendor [⟨1, "Acme", "TA", none, none, 10, 10⟩,
        ⟨2, "Bmart", "TB", none, none, 5, 5⟩] 30 1
        { tax_id := some (some "TB") }).1 = UpdateOutcome.dup t →
      (update_vendor [⟨1, "Acme", "TA", none, none, 10, 10⟩,
        ⟨2, "Bmart", "TB", none, none, 5, 5⟩] 30 1
        { tax_id := some (some "TB") }).2 =
        [⟨1, "Acme", "TA", none, none, 10, 10⟩,
         ⟨2, "Bmart", "TB", none, none, 5, 5⟩]) ∧
    (∃ v2, (update_vendor [⟨1, "Acme", "TA", none, none, 10, 10⟩,
        ⟨2, "Bmart", "TB", none, none, 5, 5⟩] 30 1
        { tax_id := some (some (⟨1, "Acme", "TA", none, none, 10, 10⟩ :
          Vendor).tax_id) }).1 = UpdateOutcome.ok v2 ∧
      v2.tax_id = (⟨1, "Acme", "TA", none, none, 10, 10⟩ : Vendor).tax_id) :=
  update_vendor_dup_condition
    [⟨1, "Acme", "TA", none, none, 10, 10⟩, ⟨2, "Bmart", "TB", none, none, 5, 5⟩]
    30 1 { tax_id := some (some "TB") } ⟨1, "Acme", "TA", none, none, 10, 10⟩
    (by decide) (by decide) (by decide)

/-! ### C4: partial update touches only supplied fields -/

theorem update_vendor_ok_eq {s : Storage} {now id : Nat} {u : VendorUpdate}
    {v v2 : Vendor} {s2 : Storage}
    (hget : get_by_id s id = some v)
    (hrun : update_vendor s now id u = (UpdateOutcome.ok v2, s2)) :
    v2 = applyUpd now u v ∧ s2 = updMap s now id u := by
  simp only [update_vendor, hget] at hrun
  cases hdc : dupConflict s id v.tax_id u with
  | some t =>
    simp only [hdc] at hrun
    simp at hrun
  | none =>
    simp only [hdc] at hrun
    unfold runRepoUpdate at hrun
    split at hrun
    · simp at hrun
    · simp at hrun
    · rename_i v3 s3 heq
      have hro := repoUpdate_ok_some heq
      obtain ⟨ho, hs⟩ := Prod.mk.injEq .. ▸ hrun
      have hfind2 : s3.find? (fun w => w.id == id) = some v3 := hro.2.2
      rw [hro.1] at hfind2
      rw [updMap_find?_eq hget] at hfind2
      have hva : v3 = applyUpd now u v := (Option.some.inj hfind2).symm
      refine ⟨?_, ?_⟩
      · rw [← UpdateOutcome.ok.inj ho]
        exact hva
      · rw [← hs]
        exact hro.1

/-- C4: a successful partial update changes exactly the supplied fields of
the target vendor, keeps every unsupplied field (nothing is nulled out),
refreshes updated_at, preserves id and created_at, and leaves every other
vendor in storage. -/
theorem update_vendor_partial_frame (s : Storage) (now id : Nat)
    (u : VendorUpdate) (v v2 : Vendor) (s2 : Storage)
    (hget : get_by_id s id = some v)
    (hrun : update_vendor s now id u = (UpdateOutcome.ok v2, s2)) :
    v2.id = v.id ∧ v2.created_at = v.created_at ∧ v2.updated_at = now ∧
    (u.name = none → v2.name = v.name) ∧
    (∀ n, u.name = some (some n) → v2.name = n) ∧
    (u.tax_id = none → v2.tax_id = v.tax_id) ∧
    (∀ t, u.tax_id = some (some t) → v2.tax_id = t) ∧
    (u.address = none → v2.address = v.address) ∧
    (∀ a, u.address = some a → v2.address = a) ∧
    (u.contact_email = none → v2.contact_email = v.contact_email) ∧
    (∀ a, u.contact_email = some a → v2.contact_email = a) ∧
    (∀ w ∈ s, w.id ≠ id → w ∈ s2) := by
  obtain ⟨hv2, hs2⟩ := update_vendor_ok_eq hget hrun
  subst hv2
  subst hs2
  refine ⟨rfl, rfl, rfl, ?_, ?_, ?_, ?_, ?_, ?_, ?_, ?_, ?_⟩
  · intro h; simp [applyUpd, h]
  · intro n h; simp [applyUpd, h]
  · intro h; simp [applyUpd, h]
  · intro t h; simp [applyUpd, h]
  · intro h; simp [applyUpd, h]
  · intro a h; simp [applyUpd, h]
  · intro h; simp [applyUpd, h]
  · intro a h; simp [applyUpd, h]
  · intro w hw hwid
    rw [updMap]
    refine List.mem_map.mpr ⟨w, hw, ?_⟩
    rw [if_neg (by simp [hwid])]

/-- Concrete data for the C4 witness. -/
def demoV4 : Vendor := ⟨1, "Acme", "T1", some "1 Main", some "mail", 10, 10⟩

/-- Concrete storage for the C4 witness. -/
def demoS4 : Storage := [demoV4, ⟨2, "Bmart", "T2", none, none, 5, 5⟩]

/-- Concrete partial payload for the C4 witness: only the name supplied. -/
def demoU4 : VendorUpdate := { name := some (some "NewName") }

/-- Witness for C4: a name-only update leaves address untouched, sets the
new name, and refreshes updated_at. -/
theorem update_vendor_partial_frame_witness :
    (applyUpd 30 demoU4 demoV4).updated_at = 30 ∧
    (applyUpd 30 demoU4 demoV4).address = demoV4.address ∧
    (applyUpd 30 demoU4 demoV4).name = "NewName" := by
  obtain ⟨h1, h2, h3, h4, h5, h6, h7, h8, h9, h10, h11, h12⟩ :=
    update_vendor_partial_frame demoS4 30 1 demoU4 demoV4
      (applyUpd 30 demoU4 demoV4) (updMap demoS4 30 1 demoU4) rfl rfl
  exact ⟨h3, h8 rfl, h5 "NewName" rfl⟩

/-! ### C5: pagination clamping and the total_pages ceiling -/

theorem clampPage_idem (p : Int) : clampPage (clampPage p) = clampPage p := by
  unfold clampPage
  split_ifs <;> omega

theorem clampSize_idem (n : Int) : clampSize (clampSize n) = clampSize n := by
  unfold clampSize
  split_ifs <;> omega

theorem one_le_clampPage (p : Int) : 1 ≤ clampPage p := by
  unfold clampPage
  split_ifs <;> omega

theorem one_le_clampSize (n : Int) : 1 ≤ clampSize n := by
  unfold clampSize
  split_ifs <;> omega

theorem clampSize_le_100 (n : Int) : clampSize n ≤ 100 := by
  unfold clampSize
  split_ifs <;> omega

theorem ceil_div_bounds (tot n : Nat) (hn : 1 ≤ n) :
    tot ≤ ((tot + n - 1) / n) * n ∧ ((tot + n - 1) / n) * n < tot + n := by
  have hd := Nat.div_add_mod (tot + n - 1) n
  have hmlt : (tot + n - 1) % n < n := Nat.mod_lt _ (by omega)
  obtain ⟨m, hm⟩ : ∃ m, n * ((tot + n - 1) / n) = m := ⟨_, rfl⟩
  rw [Nat.mul_comm, hm]
  rw [hm] at hd
  omega

/-- C5: search_vendors_paged silently clamps page to at least 1 and
page_size into [1, 100] (the result coincides with the one for the clamped
inputs, so page_size 1000 behaves as 100 and page 0 as 1), and total_pages
is the ceiling of the total match count divided by the clamped page_size. -/
theorem search_vendors_paged_clamping (s : Storage) (p : VendorSearchParams)
    (page page_size : Int) :
    search_vendors_paged s p page page_size =
      search_vendors_paged s p (clampPage page) (clampSize page_size) ∧
    (search_vendors_paged s p page page_size).page = clampPage page ∧
    (search_vendors_paged s p page page_size).page_size = clampSize page_size ∧
    1 ≤ clampPage page ∧
    1 ≤ clampSize page_size ∧ clampSize page_size ≤ 100 ∧
    (search_vendors_paged s p page page_size).total ≤
      (search_vendors_paged s p page page_size).total_pages *
        (clampSize page_size).toNat ∧
    (search_vendors_paged s p page page_size).total_pages *
        (clampSize page_size).toNat <
      (search_vendors_paged s p page page_size).total +
        (clampSize page_size).toNat := by
  have hn : 1 ≤ (clampSize page_size).toNat := by
    have := one_le_clampSize page_size
    omega
  have hceil := ceil_div_bounds (search_vendors s p (clampPage page).toNat
    (clampSize page_size).toNat).2 (clampSize page_size).toNat hn
  refine ⟨?_, rfl, rfl, one_le_clampPage page, one_le_clampSize page_size,
    clampSize_le_100 page_size, hceil.1, hceil.2⟩
  unfold search_vendors_paged
  rw [clampPage_idem, clampSize_idem]

/-! ### C6: OR combination of search filters -/

theorem likeScan_iff (f : List Char → Bool) (t : List Char) :
    likeScan f t = true ↔ ∃ t1 t2, t = t1 ++ t2 ∧ f t2 = true := by
  induction t with
  | nil =>
    simp only [likeScan]
    constructor
    · intro h
      exact ⟨[], [], rfl, h⟩
    · rintro ⟨t1, t2, he, hf⟩
      obtain ⟨rfl, rfl⟩ := List.append_eq_nil.mp he.symm
      exact hf
  | cons c ts ih =>
    simp only [likeScan, Bool.or_eq_true, ih]
    constructor
    · rintro (h | ⟨t1, t2, rfl, hf⟩)
      · exact ⟨[], c :: ts, rfl, h⟩
      · exact ⟨c :: t1, t2, rfl, hf⟩
    · rintro ⟨t1, t2, he, hf⟩
      cases t1 with
      | nil =>
        rw [List.nil_append] at he
        subst he
        exact Or.inl hf
      | cons a t1 =>
        rw [List.cons_append] at he
        injection he with h1 h2
        exact Or.inr ⟨t1, t2, h2, hf⟩

theorem likeMatch_plain_starts : ∀ (p : List Char), '%' ∉ p → '_' ∉ p →
    ∀ t, likeMatch (p ++ ['%']) t = true ↔ p <+: t := by
  intro p
  induction p with
  | nil =>
    intro _ _ t
    rw [List.nil_append,
      show likeMatch ['%'] t = likeScan (fun u => likeMatch [] u) t from by
        simp [likeMatch]]
    rw [likeScan_iff]
    constructor
    · intro _
      exact List.nil_prefix
    · intro _
      exact ⟨t, [], by simp, by simp [likeMatch]⟩
  | cons c p ih =>
    intro hp hu t
    have hc : ¬ c = '%' := fun h => hp (by simp [h])
    have hcu : ¬ c = '_' := fun h => hu (by simp [h])
    have hp2 : '%' ∉ p := fun h => hp (List.mem_cons_of_mem _ h)
    have hu2 : '_' ∉ p := fun h => hu (List.mem_cons_of_mem _ h)
    rw [List.cons_append,
      show likeMatch (c :: (p ++ ['%'])) t =
        (match t with
         | [] => false
         | a :: ts => (c == '_' || c == a) && likeMatch (p ++ ['%']) ts) from by
        simp [likeMatch, hc]]
    cases t with
    | nil => simp
    | cons a ts =>
      simp only [Bool.and_eq_true, Bool.or_eq_true, beq_iff_eq, ih hp2 hu2 ts,
        List.cons_prefix_cons]
      constructor
      · rintro ⟨h | h, h2⟩
        · exact absurd h hcu
        · exact ⟨h, h2⟩
      · rintro ⟨h, h2⟩
        exact ⟨Or.inr h, h2⟩

theorem likeMatch_substring (p : List Char) (hp : '%' ∉ p) (hu : '_' ∉ p)
    (t : List Char) :
    likeMatch ('%' :: (p ++ ['%'])) t = true ↔ p <:+: t := by
  rw [show likeMatch ('%' :: (p ++ ['%'])) t
      = likeScan (fun u => likeMatch (p ++ ['%']) u) t from by simp [likeMatch]]
  rw [likeScan_iff]
  constructor
  · rintro ⟨t1, t2, rfl, hf⟩
    obtain ⟨r, rfl⟩ := (likeMatch_plain_starts p hp hu t2).mp hf
    exact ⟨t1, r, by simp⟩
  · rintro ⟨u1, u2, rfl⟩
    exact ⟨u1, p ++ u2, by simp, (likeMatch_plain_starts p hp hu _).mpr ⟨u2, rfl⟩⟩

/-- Specification-side reading of C6: no filter was supplied at all. -/
def noFilters (p : VendorSearchParams) : Prop :=
  p.name = none ∧ p.tax_id = none ∧ p.address = none ∧ p.contact_email = none

/-- The matching notion the repository applies to one supplied filter:
func.lower(field) LIKE the lowercased filter between percent wildcards,
with percent and underscore inside the filter keeping their SQL wildcard
meaning (the filter is interpolated unescaped); for a wildcard-free filter
this is case-insensitive substring containment (likeMatch_substring). -/
def specAnyFilterHit (p : VendorSearchParams) (v : Vendor) : Prop :=
  (∃ q, p.name = some q ∧ likeContains v.name q = true) ∨
  (∃ q, p.tax_id = some q ∧ likeContains v.tax_id q = true) ∨
  (∃ q, p.address = some q ∧ likeContainsOpt v.address q = true) ∨
  (∃ q, p.contact_email = some q ∧ likeContainsOpt v.contact_email q = true)

/-- C6 counterexample: the filter text is interpolated unescaped into the
LIKE pattern, so an underscore in a supplied filter is a single-character
SQL wildcard, not a literal.  The contact_email filter john_doe matches the
stored address johnXdoe@mail in the program although john_doe is not a
substring of it, refuting the claimed case-insensitive-substring reading of
the match. -/
theorem search_vendors_substring_counterexample :
    (⟨1, "John", "T1", none, some "johnXdoe@mail", 5, 5⟩ : Vendor) ∈
      searchMatching [⟨1, "John", "T1", none, some "johnXdoe@mail", 5, 5⟩]
        { contact_email := some "john_doe" } ∧
    ¬ (lowerChars "john_doe") <:+: (lowerChars "johnXdoe@mail") := by
  constructor
  · decide
  · decide

/-- C6 (amended): with every filter either absent or a non-empty string, a
vendor is in the matching set exactly when no filter was supplied or at
least one supplied filter LIKE-matches the corresponding field
case-insensitively — where percent and underscore inside the filter act as
SQL wildcards, and a wildcard-free filter LIKE-matches exactly when it is a
case-insensitive substring of the field — filters combine with OR, and the
reported total counts all matching rows before pagination. -/
theorem search_vendors_or_semantics (s : Storage) (p : VendorSearchParams)
    (v : Vendor) (page page_size : Nat)
    (hn : p.name ≠ some "") (ht : p.tax_id ≠ some "")
    (ha : p.address ≠ some "") (he : p.contact_email ≠ some "") :
    (v ∈ searchMatching s p ↔ v ∈ s ∧ (noFilters p ∨ specAnyFilterHit p v)) ∧
    (search_vendors s p page page_size).2 = (searchMatching s p).length ∧
    (∀ (field q : String), '%' ∉ lowerChars q → '_' ∉ lowerChars q →
      (likeContains field q = true ↔ lowerChars q <:+: lowerChars field)) := by
  refine ⟨?_, rfl, ?_⟩
  · obtain ⟨pn, pt, pa, pe⟩ := p
    cases pn <;> cases pt <;> cases pa <;> cases pe <;>
      simp_all [searchMatching, searchConds, optCond, noFilters, specAnyFilterHit,
        List.mem_filter, ne_eq, Option.some.injEq]
  · intro field q hq1 hq2
    exact likeMatch_substring (lowerChars q) hq1 hq2 (lowerChars field)

/-- Witness for C6 at the acme/xyz fixture of the specification: a vendor
matching only the tax_id filter is in the matching set, and the wildcard-free
filter acme LIKE-matches exactly as a substring. -/
theorem search_vendors_or_semantics_witness :
    ((⟨2, "Other", "XYZ9", none, none, 5, 5⟩ : Vendor) ∈
        searchMatching
          [⟨1, "Acme Corp", "T1", none, none, 10, 10⟩,
           ⟨2, "Other", "XYZ9", none, none, 5, 5⟩]
          { name := some "acme", tax_id := some "xyz" } ↔
      (⟨2, "Other", "XYZ9", none, none, 5, 5⟩ : Vendor) ∈
          ([⟨1, "Acme Corp", "T1", none, none, 10, 10⟩,
            ⟨2, "Other", "XYZ9", none, none, 5, 5⟩] : Storage) ∧
        (noFilters { name := some "acme", tax_id := some "xyz" } ∨
          specAnyFilterHit { name := some "acme", tax_id := some "xyz" }
            ⟨2, "Other", "XYZ9", none, none, 5, 5⟩)) ∧
    (search_vendors
        [⟨1, "Acme Corp", "T1", none, none, 10, 10⟩,
         ⟨2, "Other", "XYZ9", none, none, 5, 5⟩]
        { name := some "acme", tax_id := some "xyz" } 1 50).2 =
      (searchMatching
        [⟨1, "Acme Corp", "T1", none, none, 10, 10⟩,
         ⟨2, "Other", "XYZ9", none, none, 5, 5⟩]
        { name := some "acme", tax_id := some "xyz" }).length ∧
    (likeContains "Acme Corp" "acme" = true ↔
      lowerChars "acme" <:+: lowerChars "Acme Corp") := by
  obtain ⟨h1, h2, h3⟩ :=
    search_vendors_or_semantics
      [⟨1, "Acme Corp", "T1", none, none, 10, 10⟩,
       ⟨2, "Other", "XYZ9", none, none, 5, 5⟩]
      { name := some "acme", tax_id := some "xyz" }
      ⟨2, "Other", "XYZ9", none, none, 5, 5⟩ 1 50
      (by simp) (by simp) (by simp) (by simp)
  exact ⟨h1, h2, h3 "Acme Corp" "acme" (by decide) (by decide)⟩

/-! ### C10: an empty-string filter behaves as an absent filter -/

/-- C10: supplying a filter as the empty string produces exactly the search
results (page and total) of the same search with that filter omitted, for
each of the four filter fields. -/
theorem search_vendors_empty_filter_absent (s : Storage)
    (n t a e : Option String) (page page_size : Nat) :
    (search_vendors s
        { name := some "", tax_id := t, address := a, contact_email := e }
        page page_size =
      search_vendors s
        { name := none, tax_id := t, address := a, contact_email := e }
        page page_size) ∧
    (search_vendors s
        { name := n, tax_id := some "", address := a, contact_email := e }
        page page_size =
      search_vendors s
        { name := n, tax_id := none, address := a, contact_email := e }
        page page_size) ∧
    (search_vendors s
        { name := n, tax_id := t, address := some "", contact_email := e }
        page page_size =
      search_vendors s
        { name := n, tax_id := t, address := none, contact_email := e }
        page page_size) ∧
    (search_vendors s
        { name := n, tax_id := t, address := a, contact_email := some "" }
        page page_size =
      search_vendors s
        { name := n, tax_id := t, address := a, contact_email := none }
        page page_size) := by
  refine ⟨?_, ?_, ?_, ?_⟩ <;>
    simp [search_vendors, searchMatching, searchConds, optCond]

/-! ### C7: within-batch duplicate visibility on CSV import -/

/-- C7: importing two rows that share the same fresh (non-blank, trimmed)
tax_id creates the first and rejects the second as a per-row tax_id error
(row number 3, the second data row), leaving exactly one stored vendor with
that tax_id. -/
theorem import_within_batch_duplicate (s : Storage) (now : Nat)
    (emailOk : String → Bool) (r1 r2 : CsvRow) (T : String)
    (h1 : (pyStrip r1.name) ≠ "") (h2 : (pyStrip r2.name) ≠ "")
    (he1 : emailFieldOk emailOk r1.contact_email = true)
    (he2 : emailFieldOk emailOk r2.contact_email = true)
    (ht1 : (pyStrip r1.tax_id) = T) (ht2 : (pyStrip r2.tax_id) = T) (hT : T ≠ "")
    (hnew : ∀ v ∈ s, v.tax_id ≠ T) :
    (import_vendors_csv s now emailOk [r1, r2]).2.total_rows = 2 ∧
    (import_vendors_csv s now emailOk [r1, r2]).2.success_count = 1 ∧
    (import_vendors_csv s now emailOk [r1, r2]).2.error_count = 1 ∧
    (import_vendors_csv s now emailOk [r1, r2]).2.errors =
      [⟨3, "tax_id", "duplicate tax id"⟩] ∧
    ((import_vendors_csv s now emailOk [r1, r2]).1.filter
      (fun v => v.tax_id == T)).length = 1 := by
  subst ht1
  have hfind1 : get_by_tax_id s (pyStrip r1.tax_id) = none := by
    rw [get_by_tax_id, List.find?_eq_none]
    intro x hx
    simpa using hnew x hx
  have hcreate := create_fresh_ok s now
    ⟨(pyStrip r1.name), (pyStrip r1.tax_id), r1.address, r1.contact_email⟩ hnew
  have hwtax : (⟨nextId s, (pyStrip r1.name), (pyStrip r1.tax_id), r1.address,
      r1.contact_email, now, now⟩ : Vendor).tax_id = (pyStrip r1.tax_id) := rfl
  have hfind2 : get_by_tax_id
      (s ++ [⟨nextId s, (pyStrip r1.name), (pyStrip r1.tax_id), r1.address,
        r1.contact_email, now, now⟩]) (pyStrip r2.tax_id) =
      some ⟨nextId s, (pyStrip r1.name), (pyStrip r1.tax_id), r1.address,
        r1.contact_email, now, now⟩ := by
    rw [ht2, get_by_tax_id, List.find?_append]
    rw [show s.find? (fun v => v.tax_id == (pyStrip r1.tax_id)) = none from hfind1]
    simp
  have hrows : importRows now emailOk s 0 [r1, r2] =
      (s ++ [⟨nextId s, (pyStrip r1.name), (pyStrip r1.tax_id), r1.address,
        r1.contact_email, now, now⟩], 1,
       [⟨3, "tax_id", "duplicate tax id"⟩]) := by
    rw [importRows]
    rw [if_pos he1]
    rw [if_neg h1, if_neg hT]
    rw [hfind1]
    simp only []
    rw [hcreate]
    simp only [addOk]
    rw [importRows]
    rw [if_pos he2]
    rw [if_neg h2, if_neg (by rw [ht2]; exact hT)]
    rw [hfind2]
    simp only [importRows, addErr]
  have hfilter : ((s ++ [(⟨nextId s, (pyStrip r1.name), (pyStrip r1.tax_id), r1.address,
      r1.contact_email, now, now⟩ : Vendor)]).filter
      (fun v => v.tax_id == (pyStrip r1.tax_id))).length = 1 := by
    rw [List.filter_append]
    have hnil : s.filter (fun v => v.tax_id == (pyStrip r1.tax_id)) = [] := by
      rw [List.filter_eq_nil_iff]
      intro x hx
      simpa using hnew x hx
    rw [hnil]
    simp
  refine ⟨rfl, ?_, ?_, ?_, ?_⟩
  · simp [import_vendors_csv, hrows]
  · simp [import_vendors_csv, hrows]
  · simp [import_vendors_csv, hrows]
  · simp only [import_vendors_csv, hrows]
    exact hfilter

/-- Witness for C7: two rows with the fresh tax_id T7 against a storage
already holding T1; both rows have no contact_email, so any validator
accepts them. -/
theorem import_within_batch_duplicate_witness :
    (import_vendors_csv [⟨1, "Acme", "T1", none, none, 10, 10⟩] 40 (fun _ => true)
      [⟨"D", "T7", none, none⟩, ⟨"E", " T7 ", none, none⟩]).2.total_rows = 2 ∧
    (import_vendors_csv [⟨1, "Acme", "T1", none, none, 10, 10⟩] 40 (fun _ => true)
      [⟨"D", "T7", none, none⟩, ⟨"E", " T7 ", none, none⟩]).2.success_count = 1 ∧
    (import_vendors_csv [⟨1, "Acme", "T1", none, none, 10, 10⟩] 40 (fun _ => true)
      [⟨"D", "T7", none, none⟩, ⟨"E", " T7 ", none, none⟩]).2.error_count = 1 ∧
    (import_vendors_csv [⟨1, "Acme", "T1", none, none, 10, 10⟩] 40 (fun _ => true)
      [⟨"D", "T7", none, none⟩, ⟨"E", " T7 ", none, none⟩]).2.errors =
      [⟨3, "tax_id", "duplicate tax id"⟩] ∧
    ((import_vendors_csv [⟨1, "Acme", "T1", none, none, 10, 10⟩] 40 (fun _ => true)
      [⟨"D", "T7", none, none⟩, ⟨"E", " T7 ", none, none⟩]).1.filter
      (fun v => v.tax_id == "T7")).length = 1 :=
  import_within_batch_duplicate [⟨1, "Acme", "T1", none, none, 10, 10⟩] 40
    (fun _ => true) ⟨"D", "T7", none, none⟩ ⟨"E", " T7 ", none, none⟩ "T7"
    (by decide) (by decide) rfl rfl (by decide) (by decide) (by decide) (by decide)

/-! ### C8: the change feed since a timestamp -/

theorem pySlice_nonneg {α : Type} (l : List α) (start ps : Int)
    (h0 : 0 ≤ start) (hps : 0 ≤ ps) :
    pySlice l start (start + ps) = (l.drop start.toNat).take ps.toNat := by
  simp only [pySlice]
  rw [if_neg (by omega), if_neg (by omega)]
  have hst : (start + ps).toNat = start.toNat + ps.toNat := by omega
  rw [hst]
  by_cases hal : start.toNat ≤ l.length
  · rw [Nat.min_eq_left hal]
    by_cases hacl : start.toNat + ps.toNat ≤ l.length
    · rw [Nat.min_eq_left hacl]
      rw [List.take_drop]
    · rw [Nat.min_eq_right (by omega)]
      rw [List.take_length]
      rw [List.take_of_length_le (by rw [List.length_drop]; omega)]
  · rw [Nat.min_eq_right (by omega)]
    rw [List.drop_eq_nil_of_le (by rw [List.length_take]; omega)]
    rw [List.drop_eq_nil_of_le (by omega), List.take_nil]

/-- C8 counterexample: the change feed does not clamp page the way search
does.  One vendor updated after the timestamp: at page 0 the source raises
(the pydantic ValidationError of the page ge 1 Field constraint when the
response is constructed, modelled as none), while the clamping contract of
search would make page 0 behave as page 1, which returns the vendor. -/
theorem get_vendor_changes_clamping_counterexample :
    get_vendor_changes_since [⟨1, "Acme", "T1", none, none, 10, 10⟩]
        0 0 50 = none ∧
    (get_vendor_changes_since [⟨1, "Acme", "T1", none, none, 10, 10⟩]
        0 1 50).map (fun r => r.changes) =
      some [⟨1, "updated", none, 10, ⟨1, "Acme", "T1", none, none, 10, 10⟩⟩] := by
  constructor <;> rfl

/-- C8 (amended): get_vendor_changes_since performs no clamping: outside
the validated range (page at least 1, page_size in [1, 100], the Field
constraints of the response model, plus nonzero page_size for the floor
division) it raises instead of answering.  Within the range, the feed
returns exactly the vendors whose updated_at is strictly greater than the
timestamp, each as a synthetic updated change, paginated in memory at
offset (page - 1) * page_size, with total_changes the full matching count,
total_pages its ceiling by page_size, and an empty result when no vendor is
newer than the timestamp. -/
theorem get_vendor_changes_since_spec (s : Storage) (t : Nat)
    (page page_size : Int) (hp : 1 ≤ page) (hn : 1 ≤ page_size)
    (hle : page_size ≤ 100) :
    (∀ p2 n2 : Int, p2 < 1 ∨ n2 < 1 ∨ n2 > 100 →
      get_vendor_changes_since s t p2 n2 = none) ∧
    ∃ r, get_vendor_changes_since s t page page_size = some r ∧
      r.changes = (((s.filter (fun v => t < v.updated_at)).drop
          ((page - 1) * page_size).toNat).take page_size.toNat).map toChange ∧
      (∀ c ∈ r.changes, c.change_type = "updated") ∧
      r.total_changes = (s.filter (fun v => t < v.updated_at)).length ∧
      r.total_changes ≤ r.total_pages.toNat * page_size.toNat ∧
      r.total_pages.toNat * page_size.toNat <
        r.total_changes + page_size.toNat ∧
      ((∀ v ∈ s, v.updated_at ≤ t) → r.changes = [] ∧ r.total_changes = 0) := by
  have hps0 : ¬ page_size = 0 := by omega
  have hmain : get_vendor_changes_since s t page page_size = some {
      changes := (pySlice (s.filter (fun v => t < v.updated_at))
        ((page - 1) * page_size) ((page - 1) * page_size + page_size)).map toChange,
      total_changes := (s.filter (fun v => t < v.updated_at)).length,
      since_timestamp := t, page := page, page_size := page_size,
      total_pages := Int.fdiv
        (((s.filter (fun v => t < v.updated_at)).length : Int) + page_size - 1)
        page_size } := by
    simp only [get_vendor_changes_since]
    rw [if_neg hps0,
      if_neg (show ¬ (page < 1 ∨ page_size < 1 ∨ page_size > 100) by omega)]
  have hslice := pySlice_nonneg (s.filter (fun v => t < v.updated_at))
    ((page - 1) * page_size) page_size
    (Int.mul_nonneg (by omega) (by omega)) (by omega)
  have hp1 : 1 ≤ page_size.toNat := by omega
  have hfd : Int.fdiv
      (((s.filter (fun v => t < v.updated_at)).length : Int) + page_size - 1)
      page_size =
      ((((s.filter (fun v => t < v.updated_at)).length
        + page_size.toNat - 1) / page_size.toNat : Nat) : Int) := by
    obtain ⟨p, hps⟩ : ∃ p : Nat, page_size = (p : Int) := ⟨page_size.toNat, by omega⟩
    subst hps
    simp only [Int.toNat_natCast]
    rw [show (((s.filter (fun v => t < v.updated_at)).length : Int) + (p : Int) - 1)
        = (((s.filter (fun v => t < v.updated_at)).length + p - 1 : Nat) : Int)
        by omega]
    exact (Int.ofNat_fdiv _ _).symm
  have htn : (Int.fdiv
      (((s.filter (fun v => t < v.updated_at)).length : Int) + page_size - 1)
      page_size).toNat =
      ((s.filter (fun v => t < v.updated_at)).length
        + page_size.toNat - 1) / page_size.toNat := by
    rw [hfd]
    exact Int.toNat_natCast _
  have hceil := ceil_div_bounds
    (s.filter (fun v => t < v.updated_at)).length page_size.toNat hp1
  refine ⟨?_, _, hmain, ?_, ?_, rfl, ?_, ?_, ?_⟩
  · intro p2 n2 hbad
    simp only [get_vendor_changes_since]
    split_ifs <;> rfl
  · show (pySlice (s.filter (fun v => t < v.updated_at))
        ((page - 1) * page_size) ((page - 1) * page_size + page_size)).map toChange
      = _
    rw [hslice]
  · intro c hc
    obtain ⟨v, hv, rfl⟩ := List.mem_map.mp hc
    rfl
  · show (s.filter (fun v => t < v.updated_at)).length ≤
      (Int.fdiv (((s.filter (fun v => t < v.updated_at)).length : Int)
        + page_size - 1) page_size).toNat * page_size.toNat
    rw [htn]
    exact hceil.1
  · show (Int.fdiv (((s.filter (fun v => t < v.updated_at)).length : Int)
        + page_size - 1) page_size).toNat * page_size.toNat <
      (s.filter (fun v => t < v.updated_at)).length + page_size.toNat
    rw [htn]
    exact hceil.2
  · intro hall
    have hnil : s.filter (fun v => t < v.updated_at) = [] := by
      rw [List.filter_eq_nil_iff]
      intro a ha
      have := hall a ha
      simp only [decide_eq_true_eq]
      omega
    constructor
    · show (pySlice (s.filter (fun v => t < v.updated_at)) _ _).map toChange = _
      rw [hnil]
      simp [pySlice]
    · show (s.filter (fun v => t < v.updated_at)).length = 0
      rw [hnil]
      rfl

/-- Witness for the amended C8 at one stored vendor, timestamp 0, page 1,
page_size 50. -/
theorem get_vendor_changes_since_spec_witness :
    (∀ p2 n2 : Int, p2 < 1 ∨ n2 < 1 ∨ n2 > 100 →
      get_vendor_changes_since [⟨1, "Acme", "T1", none, none, 10, 10⟩]
        0 p2 n2 = none) ∧
    ∃ r, get_vendor_changes_since [⟨1, "Acme", "T1", none, none, 10, 10⟩]
        0 1 50 = some r ∧
      r.changes = (((([⟨1, "Acme", "T1", none, none, 10, 10⟩] : Storage).filter
          (fun v => 0 < v.updated_at)).drop
          (((1 : Int) - 1) * 50).toNat).take (50 : Int).toNat).map toChange ∧
      (∀ c ∈ r.changes, c.change_type = "updated") ∧
      r.total_changes = (([⟨1, "Acme", "T1", none, none, 10, 10⟩] : Storage).filter
          (fun v => 0 < v.updated_at)).length ∧
      r.total_changes ≤ r.total_pages.toNat * (50 : Int).toNat ∧
      r.total_pages.toNat * (50 : Int).toNat <
        r.total_changes + (50 : Int).toNat ∧
      ((∀ v ∈ ([⟨1, "Acme", "T1", none, none, 10, 10⟩] : Storage),
          v.updated_at ≤ 0) → r.changes = [] ∧ r.total_changes = 0) :=
  get_vendor_changes_since_spec [⟨1, "Acme", "T1", none, none, 10, 10⟩]
    0 1 50 (by decide) (by decide) (by decide)

/-! ### C9: webhook notification result -/

/-- C9 counterexample: a 204 No Content response is a 2xx-class response,
yet send_webhook_notification reports failure, because the source accepts
only the statuses 200, 201 and 202. -/
theorem send_webhook_notification_2xx_counterexample :
    send_webhook_notification (some "hook") (.response 204) = false ∧
    200 ≤ 204 ∧ 204 < 300 := by
  refine ⟨rfl, by omega, by omega⟩

/-- C9 (amended): send_webhook_notification never raises; it returns true
exactly when no webhook URL is configured (no-op success) or the POST
received a response with status 200, 201 or 202; every other status
(including other 2xx statuses such as 204) and every transport failure
yield false. -/
theorem send_webhook_notification_spec (url : Option String)
    (post : PostOutcome) :
    send_webhook_notification url post = true ↔
      url = none ∨
        ∃ st, post = PostOutcome.response st ∧
          (st = 200 ∨ st = 201 ∨ st = 202) := by
  cases url with
  | none => simp [send_webhook_notification]
  | some u =>
    cases post with
    | failure => simp [send_webhook_notification]
    | response st =>
      simp [send_webhook_notification]
      omega

end VendorGrid
